import Mathlib

/-!
Shallow embedding of src/app.py (BrandGenius Enterprise, a Streamlit app).

The app wires two remote AI calls (a Groq chat completion for copy, a
Hugging Face image endpoint for visuals) to an in-memory session history.
Remote calls are modelled by oracles: the chat call takes the message list
actually sent and yields either a content string or an exception message;
each image POST attempt yields either a response (status code plus body
bytes) or an exception.  Handlers are functions from the current history
list (st.session_state.history) to the new history plus the observable
side effects (warnings shown, API calls issued).
-/

namespace BrandGenius

/-- Fixed quality keywords appended by generate_image_huggingface
(src/app.py line 103). -/
def quality_modifiers : String :=
  "award winning, professional commercial photography, 8k resolution, highly detailed, dramatic lighting"

/-- Text of the meta-prompt f-string before the spliced guidelines excerpt
(src/app.py lines 62-67). -/
def templatePre : String :=
  "\n    You are a Senior Brand Strategist.\n    \n    STEP 1: ANALYZE THE CONTEXT\n    Read the Brand Guidelines below carefully.\n    --- BRAND GUIDELINES ---\n    "

/-- Text of the meta-prompt f-string after the spliced guidelines excerpt
(src/app.py lines 69-80). -/
def templatePost : String :=
  "\n    ------------------------\n    \n    STEP 2: ENHANCE THE USER\x27S REQUEST\n    The user will give you a simple/rough instruction (e.g., \"write a post\").\n    You must interpret this as a request for a high-performing, professional marketing asset.\n    - If they say \"post\", write a structured social media update with hashtags.\n    - If they say \"email\", write a subject line + body with a clear CTA.\n    - If they say \"ad\", write a punchy headline + body copy.\n    \n    STEP 3: EXECUTE\n    Write the final copy. Do not explain your thinking. Just write the asset.\n    "

/-- The system_instruction f-string of generate_brand_aware_copy: the fixed
template with context_text[:10000] spliced in (src/app.py lines 62-80). -/
def system_instruction (context_text : String) : String :=
  templatePre ++ context_text.take 10000 ++ templatePost

/-- A chat message as sent to client.chat.completions.create
(src/app.py lines 85-88). -/
structure ChatMessage where
  role : String
  content : String
deriving DecidableEq

/-- Outcome of the remote chat-completion call: either the returned message
content, or the rendered exception (the str of the Exception e). -/
inductive ChatResult
  | content (s : String)
  | exn (e : String)
deriving DecidableEq

/-- The message list passed to the chat-completion call
(src/app.py lines 85-88): the system instruction plus the raw user prompt. -/
def chat_messages (simple_prompt context_text : String) : List ChatMessage :=
  [⟨"system", system_instruction context_text⟩, ⟨"user", simple_prompt⟩]

/-- Observable behaviour of one generate_brand_aware_copy call: the message
list it sent and the string it returned. -/
structure CopyCall where
  sent : List ChatMessage
  result : String
deriving DecidableEq

/-- generate_brand_aware_copy (src/app.py lines 55-94): builds the
meta-prompt, sends it with the user prompt, and returns the completion
content, or the string "Error: " followed by the exception on failure. -/
def generate_brand_aware_copy (simple_prompt context_text : String)
    (oracle : List ChatMessage → ChatResult) : CopyCall :=
  match oracle (chat_messages simple_prompt context_text) with
  | ChatResult.content s => ⟨chat_messages simple_prompt context_text, s⟩
  | ChatResult.exn e => ⟨chat_messages simple_prompt context_text, "Error: " ++ e⟩

/-- Outcome of one requests.post to the image endpoint: a response with a
status code and body bytes, or a raised exception (src/app.py line 114). -/
inductive PostResult
  | resp (status : Nat) (content : List Nat)
  | exn
deriving DecidableEq

/-- Observable behaviour of the retry loop of generate_image_huggingface:
the returned value, the number of POSTs issued, and the list of sleep
durations (seconds) performed. -/
structure ImgTrace where
  result : Option (List Nat)
  posts : Nat
  sleeps : List Nat
deriving DecidableEq

/-- The retry loop of generate_image_huggingface (src/app.py lines 112-124),
with the oracle giving the outcome of the POST at each attempt index:
status 200 returns the body; status 503 sleeps 4 seconds and continues;
any other status or an exception returns None; exhausting the range(3)
loop returns None. -/
def imgAttempts (oracle : Nat → PostResult) : Nat → Nat → ImgTrace
  | _, 0 => ⟨none, 0, []⟩
  | attempt, fuel + 1 =>
    match oracle attempt with
    | PostResult.exn => ⟨none, 1, []⟩
    | PostResult.resp status content =>
      if status = 200 then ⟨some content, 1, []⟩
      else if status = 503 then
        ⟨(imgAttempts oracle (attempt + 1) fuel).result,
         (imgAttempts oracle (attempt + 1) fuel).posts + 1,
         4 :: (imgAttempts oracle (attempt + 1) fuel).sleeps⟩
      else ⟨none, 1, []⟩

/-- Observable behaviour of one generate_image_huggingface call: the prompt
string placed in the POST payload, and the retry-loop trace. -/
structure ImgRun where
  payload : String
  trace : ImgTrace

/-- generate_image_huggingface (src/app.py lines 96-124): builds the
enhanced prompt f-string and runs the 3-attempt retry loop. -/
def generate_image_huggingface (simple_prompt style_context : String)
    (oracle : Nat → PostResult) : ImgRun :=
  ⟨simple_prompt ++ ", " ++ style_context ++ ", " ++ quality_modifiers,
   imgAttempts oracle 0 3⟩

/-- The content field of a history record: a text record stores the
generated string, an image record stores the raw bytes. -/
inductive Content
  | text (s : String)
  | image (b : List Nat)
deriving DecidableEq

/-- One record of st.session_state.history (src/app.py lines 180-185 and
199-204): kind tag, originating prompt, generated content, timestamp. -/
structure HistoryRecord where
  type : String
  prompt : String
  content : Content
  time : String
deriving DecidableEq

/-- Inputs visible to the do_text branch (src/app.py lines 169-185). -/
structure TextEnv where
  user_prompt : String
  brand_context : String
  chat_oracle : List ChatMessage → ChatResult
  now : String

/-- Result of the do_text branch: the new history, whether the empty-brief
warning was shown, and the message lists of the chat calls issued. -/
structure TextResult where
  history : List HistoryRecord
  warned : Bool
  sent : List (List ChatMessage)

/-- The do_text branch (src/app.py lines 169-185): an empty brief only
warns; otherwise the guidelines text (or the default context when it is
empty) is passed to generate_brand_aware_copy and a text record is
appended to the history. -/
def do_text_handler (env : TextEnv) (history : List HistoryRecord) : TextResult :=
  if env.user_prompt = "" then
    ⟨history, true, []⟩
  else
    let final_context :=
      if env.brand_context = "" then "General professional tone." else env.brand_context
    let call := generate_brand_aware_copy env.user_prompt final_context env.chat_oracle
    ⟨history ++ [⟨"text", env.user_prompt, Content.text call.result, env.now⟩],
     false, [call.sent]⟩

/-- Inputs visible to the do_img branch (src/app.py lines 187-206). -/
structure ImgEnv where
  user_prompt : String
  visual_style_desc : String
  post_oracle : Nat → PostResult
  now : String

/-- Result of the do_img branch: the new history, whether the empty-brief
warning was shown, the number of POSTs issued, and whether the failure
error was shown. -/
structure ImgHandlerResult where
  history : List HistoryRecord
  warned : Bool
  posts : Nat
  errored : Bool

/-- Python truthiness of the image_bytes value at src/app.py line 194:
None and the empty bytes object are falsy. -/
def truthyBytes : Option (List Nat) → Bool
  | none => false
  | some b => !b.isEmpty

/-- The do_img branch (src/app.py lines 187-206): an empty brief only
warns; otherwise generate_image_huggingface runs and, when its value is
truthy, an image record is appended; otherwise an error is shown and the
history is untouched. -/
def do_img_handler (env : ImgEnv) (history : List HistoryRecord) : ImgHandlerResult :=
  if env.user_prompt = "" then
    ⟨history, true, 0, false⟩
  else
    let r := generate_image_huggingface env.user_prompt env.visual_style_desc env.post_oracle
    match r.trace.result with
    | some b =>
      if b.isEmpty then ⟨history, false, r.trace.posts, true⟩
      else ⟨history ++ [⟨"image", env.user_prompt, Content.image b, env.now⟩],
            false, r.trace.posts, false⟩
    | none => ⟨history, false, r.trace.posts, true⟩

/-- One user interaction of the session: a click on one of the two
generation buttons, with the inputs in effect at that rerun. -/
inductive SessionEvent
  | textClick (env : TextEnv)
  | imgClick (env : ImgEnv)

/-- Effect of one session event on st.session_state.history. -/
def sessionStep (history : List HistoryRecord) : SessionEvent → List HistoryRecord
  | SessionEvent.textClick env => (do_text_handler env history).history
  | SessionEvent.imgClick env => (do_img_handler env history).history

/-- History after a sequence of session events. -/
def runSession (history : List HistoryRecord) (events : List SessionEvent) :
    List HistoryRecord :=
  events.foldl sessionStep history

/-- The st.secrets entries the startup code reads (src/app.py lines 20-30):
none models an absent key. -/
structure Secrets where
  groq : Option String
  hf : Option String

/-- Outcome of the startup prologue: whether st.stop halted the script, and
the error messages displayed. -/
structure StartupState where
  halted : Bool
  errors : List String

/-- Startup prologue (src/app.py lines 20-36): each missing secret displays
an error and halts; a Groq client construction failure only displays an
error and continues. -/
def startup (s : Secrets) (clientInitError : Option String) : StartupState :=
  match s.groq with
  | none => ⟨true, ["🚨 Missing GROQ_API_KEY in Streamlit Secrets!"]⟩
  | some _ =>
    match s.hf with
    | none => ⟨true, ["🚨 Missing HF_API_TOKEN in Streamlit Secrets!"]⟩
    | some _ =>
      match clientInitError with
      | some e => ⟨false, ["Groq Client Error: " ++ e]⟩
      | none => ⟨false, []⟩

/-- Whole-script run: the startup prologue followed, when not halted, by
the interactive session over an initially empty history. -/
def program (s : Secrets) (clientInitError : Option String)
    (events : List SessionEvent) : StartupState × List HistoryRecord :=
  let st := startup s clientInitError
  if st.halted then (st, []) else (st, runSession [] events)

/-- Title string of one history expander (src/app.py line 215). -/
def expander_title (item : HistoryRecord) : String :=
  item.time ++ " - " ++ item.type.toUpper ++ ": " ++ item.prompt.take 50 ++ "..."

/-- The history tab (src/app.py lines 214-221) renders one expander per
record, iterating over reversed(st.session_state.history). -/
def history_tab (history : List HistoryRecord) : List String :=
  history.reverse.map expander_title

/-- A do_text environment whose chat-completion call raises, used to
exhibit the failed-generation append. -/
def failingTextEnv : TextEnv :=
  ⟨"Launch a coffee line", "", fun _ => ChatResult.exn "APIConnectionError", "12:00"⟩

/-- A two-record history used to evaluate the history-tab ordering at a
concrete input. -/
def sampleHistory : List HistoryRecord :=
  [⟨"text", "first brief", Content.text "copy", "10:00"⟩,
   ⟨"image", "second brief", Content.image [137, 80], "10:05"⟩]

/-- A do_img environment whose POST raises, used to evaluate the
failed-image frame condition at a concrete input. -/
def witnessImgEnv : ImgEnv :=
  ⟨"brief", "style", fun _ => PostResult.exn, "12:00"⟩

/-- A do_text environment with a non-empty brief and empty guidelines,
used to evaluate the text handlers at a concrete input. -/
def witnessTextEnv : TextEnv :=
  ⟨"brief", "", fun _ => ChatResult.content "ok", "12:00"⟩

/-- A guidelines text of 10001 identical characters, one character longer
than the truncation limit. -/
def longGuidelines : String :=
  String.mk (List.replicate 10001 'a')

/-- The same guidelines text cut at exactly the 10000-character truncation
limit. -/
def cutGuidelines : String :=
  String.mk (List.replicate 10000 'a')

/-! ## Helper lemmas -/

theorem imgAttempts_exn {oracle : Nat → PostResult} {a f : Nat}
    (h : oracle a = PostResult.exn) :
    imgAttempts oracle a (f + 1) = ⟨none, 1, []⟩ := by
  simp [imgAttempts, h]

theorem imgAttempts_200 {oracle : Nat → PostResult} {a f : Nat} {c : List Nat}
    (h : oracle a = PostResult.resp 200 c) :
    imgAttempts oracle a (f + 1) = ⟨some c, 1, []⟩ := by
  simp [imgAttempts, h]

theorem imgAttempts_503 {oracle : Nat → PostResult} {a f : Nat} {c : List Nat}
    (h : oracle a = PostResult.resp 503 c) :
    imgAttempts oracle a (f + 1) =
      ⟨(imgAttempts oracle (a + 1) f).result,
       (imgAttempts oracle (a + 1) f).posts + 1,
       4 :: (imgAttempts oracle (a + 1) f).sleeps⟩ := by
  simp [imgAttempts, h]

theorem imgAttempts_other {oracle : Nat → PostResult} {a f : Nat} {st : Nat}
    {c : List Nat} (h : oracle a = PostResult.resp st c)
    (h200 : st ≠ 200) (h503 : st ≠ 503) :
    imgAttempts oracle a (f + 1) = ⟨none, 1, []⟩ := by
  simp [imgAttempts, h, h200, h503]

theorem copy_sent (simple_prompt context_text : String)
    (oracle : List ChatMessage → ChatResult) :
    (generate_brand_aware_copy simple_prompt context_text oracle).sent =
      chat_messages simple_prompt context_text := by
  cases h : oracle (chat_messages simple_prompt context_text) <;>
    simp [generate_brand_aware_copy, h]

theorem do_text_extends (env : TextEnv) (history : List HistoryRecord) :
    history <+: (do_text_handler env history).history := by
  by_cases h : env.user_prompt = "" <;>
    simp [do_text_handler, h, List.prefix_append]

theorem do_img_extends (env : ImgEnv) (history : List HistoryRecord) :
    history <+: (do_img_handler env history).history := by
  by_cases h : env.user_prompt = ""
  · simp [do_img_handler, h]
  · simp only [do_img_handler, h, if_false]
    cases hres : (generate_image_huggingface env.user_prompt env.visual_style_desc
        env.post_oracle).trace.result with
    | none => simp
    | some b => by_cases hb : b.isEmpty <;> simp [hb, List.prefix_append]

theorem sessionStep_extends (history : List HistoryRecord) (ev : SessionEvent) :
    history <+: sessionStep history ev := by
  cases ev with
  | textClick env => exact do_text_extends env history
  | imgClick env => exact do_img_extends env history

theorem runSession_extends (history : List HistoryRecord)
    (events : List SessionEvent) :
    history <+: runSession history events := by
  induction events generalizing history with
  | nil => exact List.prefix_refl history
  | cons ev evs ih =>
    exact (sessionStep_extends history ev).trans (ih (sessionStep history ev))

theorem imgAttempts_retry_503 (oracle : Nat → PostResult) :
    ∀ (f a i : Nat), i + 1 < (imgAttempts oracle a f).posts →
      ∃ c, oracle (a + i) = PostResult.resp 503 c := by
  intro f
  induction f with
  | zero =>
    intro a i h
    simp [imgAttempts] at h
  | succ f ih =>
    intro a i h
    cases hor : oracle a with
    | exn =>
      rw [imgAttempts_exn hor] at h
      dsimp only at h
      omega
    | resp st c =>
      by_cases h200 : st = 200
      · subst h200
        rw [imgAttempts_200 hor] at h
        dsimp only at h
        omega
      · by_cases h503 : st = 503
        · subst h503
          rw [imgAttempts_503 hor] at h
          cases i with
          | zero => exact ⟨c, by simpa using hor⟩
          | succ j =>
            obtain ⟨c2, hc2⟩ := ih (a + 1) j (by simp only [] at h; omega)
            exact ⟨c2, by rw [show a + (j + 1) = a + 1 + j by omega]; exact hc2⟩
        · rw [imgAttempts_other hor h200 h503] at h
          dsimp only at h
          omega

/-! ## Claim theorems -/

/-- C1: if every POST to the image API returns HTTP 503, the function makes
exactly 3 POST attempts (the original request retried exactly twice),
sleeping 4 seconds after each 503, and then gives up returning None; if
some attempt returns HTTP 200, the function returns that response's body
and makes no further attempts. -/
theorem C1_retry_policy (p s : String) (oracle : Nat → PostResult) :
    ((∀ i, i < 3 → ∃ c, oracle i = PostResult.resp 503 c) →
      (generate_image_huggingface p s oracle).trace = ⟨none, 3, [4, 4, 4]⟩)
    ∧ (∀ k c, k < 3 → (∀ i, i < k → ∃ ci, oracle i = PostResult.resp 503 ci) →
        oracle k = PostResult.resp 200 c →
        (generate_image_huggingface p s oracle).trace.result = some c ∧
        (generate_image_huggingface p s oracle).trace.posts = k + 1) := by
  constructor
  · intro h
    obtain ⟨c0, h0⟩ := h 0 (by omega)
    obtain ⟨c1, h1⟩ := h 1 (by omega)
    obtain ⟨c2, h2⟩ := h 2 (by omega)
    simp [generate_image_huggingface, imgAttempts, h0, h1, h2]
  · intro k c hk h503s h200
    interval_cases k
    · simp [generate_image_huggingface, imgAttempts, h200]
    · obtain ⟨c0, h0⟩ := h503s 0 (by omega)
      simp [generate_image_huggingface, imgAttempts, h0, h200]
    · obtain ⟨c0, h0⟩ := h503s 0 (by omega)
      obtain ⟨c1, h1⟩ := h503s 1 (by omega)
      simp [generate_image_huggingface, imgAttempts, h0, h1, h200]

/-- C1 witness: the all-503 schedule evaluated at a concrete oracle. -/
theorem C1_retry_policy_witness :
    (generate_image_huggingface "coffee cup" "Minimalist"
        (fun _ => PostResult.resp 503 [])).trace = ⟨none, 3, [4, 4, 4]⟩ :=
  (C1_retry_policy "coffee cup" "Minimalist" (fun _ => PostResult.resp 503 [])).1
    (fun _ _ => ⟨[], rfl⟩)

/-- C4: the prompt posted to the image API is the user prompt, the style
description and the fixed quality keywords, in that order, joined by
comma-space separators. -/
theorem C4_payload_concatenation (p s : String) (oracle : Nat → PostResult) :
    (generate_image_huggingface p s oracle).payload =
      String.intercalate ", " [p, s, quality_modifiers] := by
  simp [generate_image_huggingface, String.intercalate, String.intercalate.go,
    String.append_assoc]

/-- C5: whichever attempt a POST outcome other than HTTP 200 and HTTP 503
(any other status, or an exception) occurs on, the function returns None
immediately: no further POST and no further sleep follow it, so the trace
holds only the sleeps of the preceding 503s; HTTP 503 is the only
condition ever retried. -/
theorem C5_only_503_retried (p s : String) (oracle : Nat → PostResult) :
    (∀ k st c, k < 3 → (∀ i, i < k → ∃ ci, oracle i = PostResult.resp 503 ci) →
      st ≠ 200 → st ≠ 503 → oracle k = PostResult.resp st c →
      (generate_image_huggingface p s oracle).trace =
        ⟨none, k + 1, List.replicate k 4⟩)
    ∧ (∀ k, k < 3 → (∀ i, i < k → ∃ ci, oracle i = PostResult.resp 503 ci) →
      oracle k = PostResult.exn →
      (generate_image_huggingface p s oracle).trace =
        ⟨none, k + 1, List.replicate k 4⟩)
    ∧ (∀ i, i + 1 < (generate_image_huggingface p s oracle).trace.posts →
      ∃ c, oracle i = PostResult.resp 503 c) := by
  refine ⟨?_, ?_, ?_⟩
  · intro k st c hk h503s h200 h503 hfail
    interval_cases k
    · simp [generate_image_huggingface, imgAttempts, hfail, h200, h503]
    · obtain ⟨c0, h0⟩ := h503s 0 (by omega)
      simp [generate_image_huggingface, imgAttempts, h0, hfail, h200, h503]
    · obtain ⟨c0, h0⟩ := h503s 0 (by omega)
      obtain ⟨c1, h1⟩ := h503s 1 (by omega)
      simp [generate_image_huggingface, imgAttempts, h0, h1, hfail, h200, h503]
  · intro k hk h503s hfail
    interval_cases k
    · simp [generate_image_huggingface, imgAttempts, hfail]
    · obtain ⟨c0, h0⟩ := h503s 0 (by omega)
      simp [generate_image_huggingface, imgAttempts, h0, hfail]
    · obtain ⟨c0, h0⟩ := h503s 0 (by omega)
      obtain ⟨c1, h1⟩ := h503s 1 (by omega)
      simp [generate_image_huggingface, imgAttempts, h0, h1, hfail]
  · intro i h
    obtain ⟨c, hc⟩ := imgAttempts_retry_503 oracle 3 0 i h
    exact ⟨c, by simpa using hc⟩

/-- C5 witness: a 503 followed by an HTTP 500 on the second attempt stops
after exactly 2 POSTs and the single sleep of the 503. -/
theorem C5_only_503_retried_witness :
    (generate_image_huggingface "coffee cup" ""
        (fun n => if n = 0 then PostResult.resp 503 []
                  else PostResult.resp 500 [1])).trace =
      ⟨none, 1 + 1, List.replicate 1 4⟩ :=
  (C5_only_503_retried "coffee cup" ""
      (fun n => if n = 0 then PostResult.resp 503 []
                else PostResult.resp 500 [1])).1
    1 500 [1] (by omega)
    (by intro i hi; interval_cases i; exact ⟨[], rfl⟩)
    (by decide) (by decide) rfl

/-- C2 counterexample: a text generation whose chat-completion call raises
still appends a record (holding the error string) to the history, so a
failed text generation does change the history list, against the claim. -/
theorem C2_counterexample :
    failingTextEnv.chat_oracle
        (chat_messages "Launch a coffee line" "General professional tone.") =
      ChatResult.exn "APIConnectionError"
    ∧ (do_text_handler failingTextEnv []).history =
      [⟨"text", "Launch a coffee line",
        Content.text ("Error: " ++ "APIConnectionError"), "12:00"⟩]
    ∧ (do_text_handler failingTextEnv []).history ≠ [] :=
  ⟨rfl, rfl, by decide⟩

/-- C2 (amended): the history is append-only for the whole session (records
are never mutated or deleted) and an image record is appended only when
image generation succeeds, but a text generation with a non-empty brief
always appends a record, even when the chat call fails and the stored
content is the error string. -/
theorem C2_append_only (hist : List HistoryRecord) (events : List SessionEvent)
    (envI : ImgEnv) (envT : TextEnv) :
    (hist <+: runSession hist events)
    ∧ (truthyBytes (generate_image_huggingface envI.user_prompt
        envI.visual_style_desc envI.post_oracle).trace.result = false →
        (do_img_handler envI hist).history = hist)
    ∧ (envT.user_prompt ≠ "" →
        ∃ r, (do_text_handler envT hist).history = hist ++ [r] ∧
          r.type = "text") := by
  refine ⟨runSession_extends hist events, ?_, ?_⟩
  · intro hfail
    by_cases hp : envI.user_prompt = ""
    · simp [do_img_handler, hp]
    · cases hres : (generate_image_huggingface envI.user_prompt
          envI.visual_style_desc envI.post_oracle).trace.result with
      | none => simp [do_img_handler, hp, hres]
      | some b =>
        rw [hres] at hfail
        simp only [truthyBytes, Bool.not_eq_false'] at hfail
        simp [do_img_handler, hp, hres, hfail]
  · intro hp
    refine ⟨⟨"text", envT.user_prompt,
      Content.text (generate_brand_aware_copy envT.user_prompt
        (if envT.brand_context = "" then "General professional tone."
         else envT.brand_context) envT.chat_oracle).result, envT.now⟩,
      ?_, rfl⟩
    simp [do_text_handler, hp]

/-- C2 amended witness: the three conjuncts evaluated at concrete inputs. -/
theorem C2_append_only_witness :
    (([] : List HistoryRecord) <+: runSession [] [])
    ∧ (do_img_handler witnessImgEnv []).history = []
    ∧ ∃ r, (do_text_handler witnessTextEnv []).history = [] ++ [r] ∧
        r.type = "text" :=
  ⟨(C2_append_only [] [] witnessImgEnv witnessTextEnv).1,
   (C2_append_only [] [] witnessImgEnv witnessTextEnv).2.1 rfl,
   (C2_append_only [] [] witnessImgEnv witnessTextEnv).2.2 (by decide)⟩

/-- C3: the system instruction is the fixed template with exactly the first
10000 characters of the guidelines spliced in, so two guideline texts that
agree on their first 10000 characters yield the same instruction, and the
user prompt is sent alongside unmodified. -/
theorem C3_instruction_truncation (context_text simple_prompt : String)
    (oracle : List ChatMessage → ChatResult) :
    ((generate_brand_aware_copy simple_prompt context_text oracle).sent =
      [⟨"system", templatePre ++ context_text.take 10000 ++ templatePost⟩,
       ⟨"user", simple_prompt⟩])
    ∧ (∀ other : String, other.take 10000 = context_text.take 10000 →
        system_instruction other = system_instruction context_text) := by
  constructor
  · rw [copy_sent]
    rfl
  · intro other h
    simp [system_instruction, h]

/-- C3 witness: a guidelines text of 10001 characters produces the same
instruction as its 10000-character truncation. -/
theorem C3_instruction_truncation_witness :
    system_instruction longGuidelines = system_instruction cutGuidelines :=
  (C3_instruction_truncation cutGuidelines "brief"
      (fun _ => ChatResult.content "ok")).2 longGuidelines
    (by
      rw [String.take_eq, String.take_eq]
      show String.mk ((List.replicate 10001 'a').take 10000)
          = String.mk ((List.replicate 10000 'a').take 10000)
      rw [List.take_replicate, List.take_replicate]
      norm_num)

/-- C6: the text-generation function always returns a string: the chat
message content verbatim when the call succeeds, or the error string built
from the exception when the call raises; there is no failure sentinel. -/
theorem C6_copy_always_string (simple_prompt context_text : String)
    (oracle : List ChatMessage → ChatResult) :
    (∃ s, oracle (chat_messages simple_prompt context_text) =
        ChatResult.content s ∧
      (generate_brand_aware_copy simple_prompt context_text oracle).result = s)
    ∨ (∃ e, oracle (chat_messages simple_prompt context_text) =
        ChatResult.exn e ∧
      (generate_brand_aware_copy simple_prompt context_text oracle).result =
        "Error: " ++ e) := by
  cases h : oracle (chat_messages simple_prompt context_text) with
  | content s => exact Or.inl ⟨s, rfl, by simp [generate_brand_aware_copy, h]⟩
  | exn e => exact Or.inr ⟨e, rfl, by simp [generate_brand_aware_copy, h]⟩

/-- C7: startup halts exactly when a required secret is missing; it then
displays an error and no generation logic runs, and no other startup
failure (such as a Groq client construction error) is fatal. -/
theorem C7_missing_secret_halts (s : Secrets) (clientInitError : Option String)
    (events : List SessionEvent) :
    ((program s clientInitError events).1.halted = true ↔
      (s.groq = none ∨ s.hf = none))
    ∧ ((program s clientInitError events).1.halted = true →
      (program s clientInitError events).1.errors ≠ [] ∧
      (program s clientInitError events).2 = []) := by
  rcases s with ⟨groq, hf⟩
  cases groq <;> cases hf <;> cases clientInitError <;>
    simp [program, startup]

/-- C7 witness: a missing chat key halts with an error and empty history. -/
theorem C7_missing_secret_halts_witness :
    (program ⟨none, some "token"⟩ none []).1.errors ≠ [] ∧
      (program ⟨none, some "token"⟩ none []).2 = [] :=
  (C7_missing_secret_halts ⟨none, some "token"⟩ none []).2 rfl

/-- C8: an empty campaign brief makes both button handlers show only the
warning: no API call is issued and the history list is unchanged. -/
theorem C8_empty_brief_frame (envT : TextEnv) (envI : ImgEnv)
    (hist : List HistoryRecord) (ht : envT.user_prompt = "")
    (hi : envI.user_prompt = "") :
    do_text_handler envT hist = ⟨hist, true, []⟩
    ∧ do_img_handler envI hist = ⟨hist, true, 0, false⟩ := by
  constructor <;> simp [do_text_handler, do_img_handler, ht, hi]

/-- C8 witness: both handlers evaluated at a concrete empty brief. -/
theorem C8_empty_brief_frame_witness :
    do_text_handler ⟨"", "ctx", fun _ => ChatResult.content "ok", "12:00"⟩ [] =
      ⟨[], true, []⟩
    ∧ do_img_handler ⟨"", "style", fun _ => PostResult.exn, "12:00"⟩ [] =
      ⟨[], true, 0, false⟩ :=
  C8_empty_brief_frame ⟨"", "ctx", fun _ => ChatResult.content "ok", "12:00"⟩
    ⟨"", "style", fun _ => PostResult.exn, "12:00"⟩ [] rfl rfl

/-- C9: with a non-empty brief and an empty extracted guidelines text, the
chat call is made with the default context General professional tone. as
the guidelines text. -/
theorem C9_default_context (env : TextEnv) (hist : List HistoryRecord)
    (hp : env.user_prompt ≠ "") (hc : env.brand_context = "") :
    (do_text_handler env hist).sent =
      [chat_messages env.user_prompt "General professional tone."] := by
  simp [do_text_handler, hp, hc, copy_sent]

/-- C9 witness: the default context evaluated at a concrete environment. -/
theorem C9_default_context_witness :
    (do_text_handler witnessTextEnv []).sent =
      [chat_messages "brief" "General professional tone."] :=
  C9_default_context witnessTextEnv [] (by decide) rfl

/-- C10: the history tab shows records in reverse insertion order: the
entry at display position i is the record at source position
length - 1 - i, so the most recently appended record is shown first. -/
theorem C10_history_reverse_order (hist : List HistoryRecord) (i : Nat)
    (h : i < hist.length) :
    (history_tab hist)[i]? =
      Option.map expander_title hist[hist.length - 1 - i]? := by
  unfold history_tab
  rw [List.getElem?_map, List.getElem?_reverse (by simpa using h)]

/-- C10 witness: the first displayed entry of a two-record history is the
most recently appended record. -/
theorem C10_history_reverse_order_witness :
    (history_tab sampleHistory)[0]? =
      Option.map expander_title sampleHistory[sampleHistory.length - 1 - 0]? :=
  C10_history_reverse_order sampleHistory 0 (by decide)

end BrandGenius
